import Mathlib

/-!
Shallow embedding of the FinanceManager repository
(`src/main.py`, `src/finance_manager.py`, `src/models.py`).

Conventions of the embedding:
* Python `float` amounts are modelled by exact rationals `ℚ`; none of the
  verified claims depends on binary floating-point rounding.
* `datetime` values are modelled by `Int` (a `datetime` is totally ordered
  and its ISO-8601 serialisation is a bijective encoding, so only its
  position on the time line matters to the verified code paths).
* Ambient effects (`datetime.now()`, `uuid.uuid4()`) are passed in as
  explicit parameters.
* Python `dict`s keep insertion order; they are modelled by association
  lists with in-place modification of existing keys and append of new keys.
* The character-level fragments of `re` / `str.lower` / `str.strip` are
  modelled on the ASCII fragment, which covers every verified statement.
* File-system state (data file, backup directory) is modelled inside the
  manager state; file copies are pure state updates.  Write errors are not
  modelled except at the single point a claim is about (the pre-restore
  snapshot copy in `restore_backup`, whose success is an explicit flag).
-/

namespace FinanceManagerModel

/- ## Python string helpers (`str.lower`, `str.strip`, `str.split`, `re.sub`) -/

/-- `str.lower` on the ASCII fragment (maps `A`-`Z` to `a`-`z`). -/
def pyLowerChar (c : Char) : Char :=
  if c.toNat ≥ 65 ∧ c.toNat ≤ 90 then Char.ofNat (c.toNat + 32) else c

/-- `description.lower()`. -/
def pyLower (s : String) : String :=
  String.mk (s.data.map pyLowerChar)

/-- Leading/trailing-whitespace strip on a character list. -/
def charsStrip (cs : List Char) : List Char :=
  ((cs.dropWhile Char.isWhitespace).reverse.dropWhile Char.isWhitespace).reverse

/-- `s.strip()`. -/
def pyStrip (s : String) : String :=
  String.mk (charsStrip s.data)

/-- A word character for the regex `\w` (ASCII fragment: alphanumeric or underscore). -/
def isWordChar (c : Char) : Bool :=
  c.isAlphanum || c == '_'

/-- One character step of `re.sub(r'[^\w\s]', ' ', s)`:
non-word, non-space characters become a space. -/
def cleanChar (c : Char) : Char :=
  if isWordChar c || c.isWhitespace then c else ' '

/-- Worker for `str.split()`: accumulates the current token (reversed). -/
def splitWsGo : List Char → List Char → List (List Char)
  | [], cur => if cur.isEmpty then [] else [cur.reverse]
  | c :: rest, cur =>
      if c.isWhitespace then
        if cur.isEmpty then splitWsGo rest [] else cur.reverse :: splitWsGo rest []
      else
        splitWsGo rest (c :: cur)

/-- `s.split()`: split on whitespace runs, dropping empty tokens. -/
def splitWs (cs : List Char) : List (List Char) :=
  splitWsGo cs []

/- ## Data model (`src/main.py` lines 20-80) -/

/-- `class TransactionType(Enum)`. -/
inductive TransactionType where
  | receita
  | despesa
deriving DecidableEq

/-- `TransactionType.value`. -/
def TransactionType.value : TransactionType → String
  | .receita => "receita"
  | .despesa => "despesa"

/-- `class Category(Enum)` (the 17 labels of `src/main.py`). -/
inductive Category where
  | salario
  | freelance
  | investimentos
  | vendas
  | bonus
  | outrosReceita
  | alimentacao
  | transporte
  | moradia
  | saude
  | educacao
  | entretenimento
  | compras
  | contas
  | vestuario
  | tecnologia
  | outrosDespesa
deriving DecidableEq

/-- `Category.value`. -/
def Category.value : Category → String
  | .salario => "Salário"
  | .freelance => "Freelance"
  | .investimentos => "Investimentos"
  | .vendas => "Vendas"
  | .bonus => "Bônus"
  | .outrosReceita => "Outros (Receita)"
  | .alimentacao => "Alimentação"
  | .transporte => "Transporte"
  | .moradia => "Moradia"
  | .saude => "Saúde"
  | .educacao => "Educação"
  | .entretenimento => "Entretenimento"
  | .compras => "Compras"
  | .contas => "Contas"
  | .vestuario => "Vestuário"
  | .tecnologia => "Tecnologia"
  | .outrosDespesa => "Outros (Despesa)"

/-- `@dataclass class Transaction` (dates as time-line positions, see header). -/
structure Transaction where
  id : String
  description : String
  amount : ℚ
  transaction_type : TransactionType
  category : Category
  date : Int
  notes : Option String
deriving DecidableEq

/- ## Ordered-dictionary helpers (Python `dict` / `defaultdict`) -/

/-- Lookup in an insertion-ordered association list (`d[k]` when present). -/
def alistLookup {β : Type} : List (String × β) → String → Option β
  | [], _ => none
  | (k, v) :: rest, key => if k = key then some v else alistLookup rest key

/-- `d.get(k, dflt)`. -/
def alistGetD {β : Type} (l : List (String × β)) (key : String) (dflt : β) : β :=
  match alistLookup l key with
  | some v => v
  | none => dflt

/-- `d[k] = f(d.get(k, dflt))` on an insertion-ordered dictionary: an existing
key is updated in place, a new key is appended at the end (Python dicts keep
insertion order). -/
def alistAppendMod {β : Type} : List (String × β) → String → (β → β) → β → List (String × β)
  | [], key, f, dflt => [(key, f dflt)]
  | (k, v) :: rest, key, f, dflt =>
      if k = key then (k, f v) :: rest else (k, v) :: alistAppendMod rest key f dflt

/-- `Counter[c] += w` for `collections.Counter` keyed by categories
(insertion-ordered, like a dict). -/
def counterAdd : List (Category × Nat) → Category → Nat → List (Category × Nat)
  | [], c, w => [(c, w)]
  | (k, v) :: rest, c, w =>
      if k = c then (k, v + w) :: rest else (k, v) :: counterAdd rest c w

/- ## SmartSuggestionEngine (`src/main.py` lines 169-349) -/

/-- The stop-word set of `_extract_keywords` (the duplicated `'por'` of the
source literal collapses in the set). -/
def stopWords : List String :=
  ["com", "para", "por", "que", "uma", "dos", "das", "the", "and", "or",
   "mas", "ate", "sem", "sob", "sobre", "tras", "entre", "ante"]

/-- `SmartSuggestionEngine._extract_keywords`: lower-case, replace
punctuation by spaces, split on whitespace, keep stripped tokens of length
greater than 2, drop stop words, keep at most 4. -/
def extractKeywords (description : String) : List String :=
  let cleaned : List Char := (pyLower description).data.map cleanChar
  let words : List String :=
    (((splitWs cleaned).map charsStrip).filter (fun cs => decide (2 < cs.length))).map String.mk
  (words.filter (fun w => decide (w ∉ stopWords))).take 4

/-- The mutable index state of `SmartSuggestionEngine`.  The
`suggestion_cache` field of the source is omitted: it is initialised once
and never read or written afterwards. -/
structure Engine where
  categoryPatterns : List (String × List Category)
  descriptionHistory : List (String × List String)
  amountPatterns : List (String × List ℚ)
  wordFrequency : List (String × Nat)
  lastUpdate : Option String
deriving DecidableEq

/-- `SmartSuggestionEngine.__init__` (all indexes empty). -/
def emptyEngine : Engine :=
  { categoryPatterns := []
    descriptionHistory := []
    amountPatterns := []
    wordFrequency := []
    lastUpdate := none }

/-- The four rebuildable indexes of the engine, bundled. -/
structure EngineIndexes where
  categoryPatterns : List (String × List Category)
  descriptionHistory : List (String × List String)
  amountPatterns : List (String × List ℚ)
  wordFrequency : List (String × Nat)
deriving DecidableEq

/-- The four rebuildable indexes of an engine state. -/
def engineIndexes (e : Engine) : EngineIndexes :=
  { categoryPatterns := e.categoryPatterns
    descriptionHistory := e.descriptionHistory
    amountPatterns := e.amountPatterns
    wordFrequency := e.wordFrequency }

/-- The keyword loop of `update_suggestions`: per keyword, increment the
global frequency and record the category vote once. -/
def addKeywords (wf : List (String × Nat)) (cp : List (String × List Category))
    (cat : Category) : List String → List (String × Nat) × List (String × List Category)
  | [] => (wf, cp)
  | w :: rest =>
      addKeywords
        (alistAppendMod wf w (· + 1) 0)
        (alistAppendMod cp w (fun cs => if cat ∈ cs then cs else cs ++ [cat]) [])
        cat rest

/-- The per-transaction body of `update_suggestions`. -/
def processTransaction (e : Engine) (t : Transaction) : Engine :=
  let ty := t.transaction_type.value
  let desc := pyStrip (pyLower t.description)
  let ws := extractKeywords desc
  let wfcp := addKeywords e.wordFrequency e.categoryPatterns t.category ws
  { categoryPatterns := wfcp.2
    descriptionHistory :=
      alistAppendMod e.descriptionHistory ty
        (fun ds => if desc ∈ ds then ds else ds ++ [desc]) []
    amountPatterns :=
      alistAppendMod e.amountPatterns desc (fun as => as ++ [t.amount]) []
    wordFrequency := wfcp.1
    lastUpdate := e.lastUpdate }

/-- `SmartSuggestionEngine.update_suggestions`: an empty transaction list
returns early (without clearing anything); otherwise all four indexes are
cleared and recomputed from the list, and `last_update` is set. -/
def updateSuggestions (now : String) (e : Engine) (ts : List Transaction) : Engine :=
  match ts with
  | [] => e
  | _ :: _ =>
      let cleared : Engine :=
        { e with categoryPatterns := [], descriptionHistory := [],
                 amountPatterns := [], wordFrequency := [] }
      let rebuilt := ts.foldl processTransaction cleared
      { rebuilt with lastUpdate := some now }

/-- `SmartSuggestionEngine._is_category_compatible`: the six income
categories go with `"receita"`; any other type string accepts exactly the
non-income categories. -/
def isCategoryCompatible (category : Category) (transactionType : String) : Bool :=
  let receitaCategories : List Category :=
    [.salario, .freelance, .investimentos, .vendas, .bonus, .outrosReceita]
  if transactionType = "receita" then
    category ∈ receitaCategories
  else
    category ∉ receitaCategories

/-- The score accumulation of `suggest_category`: for each keyword, each
compatible recorded category gets the keyword's global frequency
(`word_frequency.get(keyword, 1)`) added to its counter. -/
def categoryScores (e : Engine) (description transactionType : String) :
    List (Category × Nat) :=
  (extractKeywords description).foldl
    (fun sc kw =>
      (alistGetD e.categoryPatterns kw []).foldl
        (fun sc2 c =>
          if isCategoryCompatible c transactionType then
            counterAdd sc2 c (alistGetD e.wordFrequency kw 1)
          else sc2)
        sc)
    []

/-- `Counter.most_common(1)[0][0]`: the first key attaining the maximal
count (Python's `max`/stable sort keeps the earliest on ties). -/
def mostCommonFst : List (Category × Nat) → Option Category
  | [] => none
  | x :: rest => some (rest.foldl (fun best p => if best.2 < p.2 then p else best) x).1

/-- `SmartSuggestionEngine.suggest_category`. -/
def suggestCategory (e : Engine) (description transactionType : String) : Option Category :=
  mostCommonFst (categoryScores e description transactionType)

/-- `sum(xs) / len(xs)` over exact rationals. -/
def listMean (xs : List ℚ) : ℚ :=
  xs.sum / xs.length

/-- `len(set(a) & set(b))`. -/
def countCommonDistinct (a b : List String) : Nat :=
  (a.dedup.filter (fun w => decide (w ∈ b))).length

/-- The similarity loop of `suggest_amount`: walk the indexed descriptions
in insertion order; when there is a common keyword and the weight
`|common| / max(len(query), len(stored))` exceeds `0.3`, extend the pool
with the stored amounts. -/
def codePool (kws : List String) : List (String × List ℚ) → List ℚ
  | [] => []
  | (storedDesc, amounts) :: rest =>
      let storedKws := extractKeywords storedDesc
      let common := countCommonDistinct kws storedKws
      if 0 < common then
        if (common : ℚ) / ((max kws.length storedKws.length : Nat) : ℚ) > 3 / 10 then
          amounts ++ codePool kws rest
        else codePool kws rest
      else codePool kws rest

/-- `SmartSuggestionEngine.suggest_amount`. -/
def suggestAmount (e : Engine) (description : String) : Option ℚ :=
  let descriptionLower := pyStrip (pyLower description)
  match alistLookup e.amountPatterns descriptionLower with
  | some amounts => some (listMean amounts)
  | none =>
      let kws := extractKeywords descriptionLower
      let similarAmounts := codePool kws e.amountPatterns
      if similarAmounts.isEmpty then none else some (listMean similarAmounts)

/-- The similarity value named by the specification:
`|intersection| / max(|query_keywords|, |stored_keywords|)`. -/
def similarity (qk sk : List String) : ℚ :=
  (countCommonDistinct qk sk : ℚ) / ((max qk.length sk.length : Nat) : ℚ)

/-- Modelled from the spec wording of `suggest_amount` (spec section 4.2):
exact match on the lower-cased description returns the mean of its recorded
amounts; otherwise collect all amounts of indexed descriptions whose
similarity exceeds `0.3` and return their mean, or none on an empty pool. -/
def suggestAmountSpec (e : Engine) (description : String) : Option ℚ :=
  let descriptionLower := pyStrip (pyLower description)
  match alistLookup e.amountPatterns descriptionLower with
  | some amounts => some (listMean amounts)
  | none =>
      let kws := extractKeywords descriptionLower
      let pool :=
        ((e.amountPatterns.filter
            (fun p => decide (similarity kws (extractKeywords p.1) > 3 / 10))).map
          Prod.snd).flatten
      if pool.isEmpty then none else some (listMean pool)

/- ## Serialisation (`Transaction.to_dict` / `Transaction.from_dict`,
`src/main.py` lines 57-80) -/

/-- The JSON record written for one transaction (`to_dict` output shape).
The `date` field carries the ISO-8601 encoding, which is bijective, so it is
modelled by the time-line position itself. -/
structure TransactionDTO where
  id : String
  description : String
  amount : ℚ
  transaction_type : String
  category : String
  date : Int
  notes : Option String
deriving DecidableEq

/-- `Transaction.to_dict`. -/
def toDict (t : Transaction) : TransactionDTO :=
  { id := t.id
    description := t.description
    amount := t.amount
    transaction_type := t.transaction_type.value
    category := t.category.value
    date := t.date
    notes := t.notes }

/-- `TransactionType(value)`: enum lookup by value, failing on unknown
strings. -/
def typeOfValue : String → Option TransactionType
  | "receita" => some .receita
  | "despesa" => some .despesa
  | _ => none

/-- `Category(value)`: enum lookup by value, failing on unknown strings. -/
def categoryOfValue : String → Option Category
  | "Salário" => some .salario
  | "Freelance" => some .freelance
  | "Investimentos" => some .investimentos
  | "Vendas" => some .vendas
  | "Bônus" => some .bonus
  | "Outros (Receita)" => some .outrosReceita
  | "Alimentação" => some .alimentacao
  | "Transporte" => some .transporte
  | "Moradia" => some .moradia
  | "Saúde" => some .saude
  | "Educação" => some .educacao
  | "Entretenimento" => some .entretenimento
  | "Compras" => some .compras
  | "Contas" => some .contas
  | "Vestuário" => some .vestuario
  | "Tecnologia" => some .tecnologia
  | "Outros (Despesa)" => some .outrosDespesa
  | _ => none

/-- `Transaction.from_dict`: fallible because the enum lookups raise on
unknown value strings (a raise is caught by `load_data`). -/
def fromDict (d : TransactionDTO) : Option Transaction :=
  match typeOfValue d.transaction_type, categoryOfValue d.category with
  | some ty, some c =>
      some { id := d.id, description := d.description, amount := d.amount,
             transaction_type := ty, category := c, date := d.date, notes := d.notes }
  | _, _ => none

/-- The JSON document written by `save_data`
(`{'transactions': ..., 'saved_at': ..., 'version': ..., 'total_transactions': ...}`). -/
structure SavedData where
  transactionsD : List TransactionDTO
  savedAt : String
  version : String
  totalTransactions : Nat
deriving DecidableEq

/-- `FinanceManager.save_data`: serialise every transaction plus metadata. -/
def saveDataDoc (now version : String) (ts : List Transaction) : SavedData :=
  { transactionsD := ts.map toDict
    savedAt := now
    version := version
    totalTransactions := ts.length }

/-- The list comprehension `[Transaction.from_dict(t) for t in ...]`: the
first failing record aborts the whole parse (the raise propagates). -/
def fromDictList : List TransactionDTO → Option (List Transaction)
  | [] => some []
  | d :: rest =>
      match fromDict d with
      | none => none
      | some t =>
          match fromDictList rest with
          | none => none
          | some ts => some (t :: ts)

/-- `FinanceManager.load_data`: a missing file or a failed parse yields an
empty transaction list (the exception is caught). -/
def loadData : Option SavedData → List Transaction
  | none => []
  | some sd =>
      match fromDictList sd.transactionsD with
      | some ts => ts
      | none => []

/- ## FinanceManager (`src/main.py` lines 406-659,
`src/finance_manager.py` lines 142-256) -/

/-- The manager's state: in-memory transactions, suggestion engine, the
data file and backup directory contents, and the configuration values the
verified operations read. -/
structure FMState where
  transactions : List Transaction
  engine : Engine
  dataFile : Option SavedData
  backups : List (String × SavedData)
  suggestionsEnabled : Bool
  version : String
deriving DecidableEq

/-- `FinanceManager.update_suggestions`: rebuild the engine only when
suggestions are enabled. -/
def managerUpdateSuggestions (now : String) (s : FMState) : FMState :=
  if s.suggestionsEnabled then
    { s with engine := updateSuggestions now s.engine s.transactions }
  else s

/-- `FinanceManager.add_transaction` (`src/main.py` lines 426-450): no
validation is performed; a fresh id is attached, the absolute value of the
amount is stored, the list is appended, persisted, and the engine signalled. -/
def addTransaction (s : FMState) (description : String) (amount : ℚ)
    (transactionType : TransactionType) (category : Category) (date : Int)
    (notes : Option String) (uuid now : String) : Bool × FMState :=
  let t : Transaction :=
    { id := uuid, description := description, amount := |amount|,
      transaction_type := transactionType, category := category,
      date := date, notes := notes }
  let ts := s.transactions ++ [t]
  let s1 : FMState := { s with transactions := ts, dataFile := some (saveDataDoc now s.version ts) }
  (true, managerUpdateSuggestions now s1)

/-- `FinanceManager.remove_transaction` (`src/main.py` lines 452-465):
filters the id out, and only when the list got shorter persists, rebuilds
the engine, and returns true. -/
def removeTransaction (s : FMState) (transactionId now : String) : Bool × FMState :=
  let oldCount := s.transactions.length
  let ts := s.transactions.filter (fun t => decide (t.id ≠ transactionId))
  let s1 : FMState := { s with transactions := ts }
  if ts.length < oldCount then
    let s2 : FMState := { s1 with dataFile := some (saveDataDoc now s.version ts) }
    (true, managerUpdateSuggestions now s2)
  else
    (false, s1)

/-- `FinanceManager.remove_transaction` of `src/finance_manager.py`
(lines 167-175): filters the id out, always persists and always returns
true — there is no found/not-found check.  (Its `save_data` omits the
`total_transactions` field; the shared document shape is reused here as the
difference is metadata only.) -/
def removeTransactionFM (s : FMState) (transactionId now : String) : Bool × FMState :=
  let ts := s.transactions.filter (fun t => decide (t.id ≠ transactionId))
  (true, { s with transactions := ts, dataFile := some (saveDataDoc now s.version ts) })

/-- `FinanceManager.restore_backup` (`src/main.py` lines 569-594).
`nowName` is the `%Y%m%d_%H%M%S` timestamp used in the pre-restore filename;
`preCopyOk` tells whether the `shutil.copy2` pre-snapshot succeeds.  The
whole body runs inside one `try`: when the pre-snapshot copy raises, the
outer handler returns `False` and nothing further happens. -/
def restoreBackup (s : FMState) (backupFilename nowName now : String)
    (preCopyOk : Bool) : Bool × FMState :=
  match alistLookup s.backups backupFilename with
  | none => (false, s)
  | some doc =>
      let afterPre : Option FMState :=
        match s.dataFile with
        | some cur =>
            if preCopyOk then
              some { s with backups :=
                s.backups ++ [("pre_restore_" ++ nowName ++ ".json", cur)] }
            else none
        | none => some s
      match afterPre with
      | none => (false, s)
      | some s1 =>
          let s2 : FMState := { s1 with dataFile := some doc }
          let s3 : FMState := { s2 with transactions := loadData (some doc) }
          (true, managerUpdateSuggestions now s3)

/-- Stable insertion into a date-descending list: strictly later dates go
in front, equal dates keep encounter order (Python `sorted` is stable). -/
def insertDateDesc (t : Transaction) : List Transaction → List Transaction
  | [] => [t]
  | h :: rest => if h.date < t.date then t :: h :: rest else h :: insertDateDesc t rest

/-- `sorted(transactions, key=lambda x: x.date, reverse=True)`. -/
def sortedByDateDesc (ts : List Transaction) : List Transaction :=
  ts.foldl (fun acc t => insertDateDesc t acc) []

/-- `FinanceManager.get_transactions` (`src/main.py` lines 467-478): copy,
filter by the inclusive optional bounds, return a new date-descending list.
The state is threaded to make the frame explicit. -/
def getTransactions (s : FMState) (startDate endDate : Option Int) :
    List Transaction × FMState :=
  let ts := s.transactions
  let ts := match startDate with
    | some sd => ts.filter (fun t => decide (sd ≤ t.date))
    | none => ts
  let ts := match endDate with
    | some ed => ts.filter (fun t => decide (t.date ≤ ed))
    | none => ts
  (sortedByDateDesc ts, s)

/-- The `{'receitas': ..., 'despesas': ..., 'saldo': ...}` result of
`calculate_balance`. -/
structure Balance where
  receitas : ℚ
  despesas : ℚ
  saldo : ℚ
deriving DecidableEq

/-- `FinanceManager.calculate_balance` (`src/main.py` lines 480-494). -/
def calculateBalance (s : FMState) (startDate endDate : Option Int) :
    Balance × FMState :=
  let ts := (getTransactions s startDate endDate).1
  let totalReceitas :=
    ((ts.filter (fun t => decide (t.transaction_type = .receita))).map
      Transaction.amount).sum
  let totalDespesas :=
    ((ts.filter (fun t => decide (t.transaction_type = .despesa))).map
      Transaction.amount).sum
  ({ receitas := totalReceitas, despesas := totalDespesas,
     saldo := totalReceitas - totalDespesas }, s)

/-- `FinanceManager.get_category_summary` (`src/main.py` lines 496-513):
two insertion-ordered totals keyed by the category value strings. -/
def getCategorySummary (s : FMState) (startDate endDate : Option Int) :
    (List (String × ℚ) × List (String × ℚ)) × FMState :=
  let ts := (getTransactions s startDate endDate).1
  let sums :=
    ts.foldl
      (fun (acc : List (String × ℚ) × List (String × ℚ)) t =>
        match t.transaction_type with
        | .receita => (alistAppendMod acc.1 t.category.value (· + t.amount) 0, acc.2)
        | .despesa => (acc.1, alistAppendMod acc.2 t.category.value (· + t.amount) 0))
      ([], [])
  (sums, s)

/- ## Concrete data used by the closed statements -/

/-- Income-category compatibility used by claim statements: the fixed
income set of `_is_category_compatible`. -/
def receitaCategorySet : List Category :=
  [.salario, .freelance, .investimentos, .vendas, .bonus, .outrosReceita]

def tUber1 : Transaction :=
  { id := "u1", description := "uber", amount := 25, transaction_type := .despesa,
    category := .transporte, date := 0, notes := none }

def tUber2 : Transaction :=
  { id := "u2", description := "uber", amount := 35, transaction_type := .despesa,
    category := .transporte, date := 1, notes := none }

/-- Engine learned from two `"uber"` expenses of 25.00 and 35.00. -/
def uberEngine : Engine :=
  updateSuggestions "t0" emptyEngine [tUber1, tUber2]

def tPostoA : Transaction :=
  { id := "p0", description := "posto padaria", amount := 12, transaction_type := .despesa,
    category := .alimentacao, date := 0, notes := none }

def tPostoT1 : Transaction :=
  { id := "p1", description := "posto gasolina", amount := 50, transaction_type := .despesa,
    category := .transporte, date := 1, notes := none }

def tPostoT2 : Transaction :=
  { id := "p2", description := "posto gasolina", amount := 60, transaction_type := .despesa,
    category := .transporte, date := 2, notes := none }

def tPostoT3 : Transaction :=
  { id := "p3", description := "posto gasolina", amount := 55, transaction_type := .despesa,
    category := .transporte, date := 3, notes := none }

/-- History with the Transporte vote for keyword `"posto"` encountered
first (three Transporte transactions, then one Alimentação). -/
def postoTxsTFirst : List Transaction := [tPostoT1, tPostoT2, tPostoT3, tPostoA]

/-- The same history with the Alimentação transaction first. -/
def postoTxsAFirst : List Transaction := [tPostoA, tPostoT1, tPostoT2, tPostoT3]

def postoEngineTFirst : Engine := updateSuggestions "t0" emptyEngine postoTxsTFirst

def postoEngineAFirst : Engine := updateSuggestions "t0" emptyEngine postoTxsAFirst

def emptyFMState : FMState :=
  { transactions := [], engine := emptyEngine, dataFile := none, backups := [],
    suggestionsEnabled := true, version := "2.0.0" }

/-- A data-file document distinct from `docBackup`. -/
def docCurrent : SavedData :=
  { transactionsD := [], savedAt := "sA", version := "2.0.0", totalTransactions := 0 }

/-- A backup document distinct from `docCurrent`. -/
def docBackup : SavedData :=
  { transactionsD := [toDict tUber1], savedAt := "sB", version := "2.0.0",
    totalTransactions := 1 }

/-- A state with a current data file and one listed backup. -/
def stateWithBackup : FMState :=
  { transactions := [], engine := emptyEngine, dataFile := some docCurrent,
    backups := [("financial_data_x.json", docBackup)],
    suggestionsEnabled := true, version := "2.0.0" }

/-- A store holding two transactions with the same description `"uber"`
and distinct ids. -/
def stateTwoUber : FMState :=
  { transactions := [tUber1, tUber2], engine := uberEngine, dataFile := none,
    backups := [], suggestionsEnabled := true, version := "2.0.0" }

/- ## Helper lemmas -/

/-- The rebuildable indexes ignore `last_update`. -/
theorem engineIndexes_withLastUpdate (e : Engine) (v : Option String) :
    engineIndexes { e with lastUpdate := v } = engineIndexes e :=
  rfl

/-- `processTransaction` on an explicit engine record, written out. -/
theorem processTransaction_mk (cp : List (String × List Category))
    (dh : List (String × List String)) (ap : List (String × List ℚ))
    (wf : List (String × Nat)) (lu : Option String) (t : Transaction) :
    processTransaction ⟨cp, dh, ap, wf, lu⟩ t
      = ⟨(addKeywords wf cp t.category
            (extractKeywords (pyStrip (pyLower t.description)))).2,
         alistAppendMod dh t.transaction_type.value
           (fun ds =>
             if pyStrip (pyLower t.description) ∈ ds then ds
             else ds ++ [pyStrip (pyLower t.description)]) [],
         alistAppendMod ap (pyStrip (pyLower t.description))
           (fun as => as ++ [t.amount]) [],
         (addKeywords wf cp t.category
            (extractKeywords (pyStrip (pyLower t.description)))).1,
         lu⟩ :=
  rfl

/-- Folding the per-transaction body over two engines that differ only in
`last_update` produces the same indexes. -/
theorem foldl_processTransaction_lastUpdate (ts : List Transaction) :
    ∀ (cp : List (String × List Category)) (dh : List (String × List String))
      (ap : List (String × List ℚ)) (wf : List (String × Nat))
      (lu lu' : Option String),
    engineIndexes (ts.foldl processTransaction ⟨cp, dh, ap, wf, lu⟩)
      = engineIndexes (ts.foldl processTransaction ⟨cp, dh, ap, wf, lu'⟩) := by
  induction ts with
  | nil => intro cp dh ap wf lu lu'; rfl
  | cons t rest ih =>
      intro cp dh ap wf lu lu'
      simp only [List.foldl_cons, processTransaction_mk]
      exact ih _ _ _ _ lu lu'

/-- `update_suggestions` (manager level) never touches the transaction list. -/
theorem managerUpdateSuggestions_transactions (now : String) (s : FMState) :
    (managerUpdateSuggestions now s).transactions = s.transactions := by
  unfold managerUpdateSuggestions
  split <;> rfl

/-- Length accounting for the removal filter. -/
theorem length_filter_not_add_countP {α : Type} (l : List α) (p : α → Bool) :
    (l.filter (fun a => !(p a))).length + l.countP p = l.length := by
  induction l with
  | nil => rfl
  | cons a l ih =>
      by_cases h : p a = true
      · simp [List.filter_cons, List.countP_cons, h]
        omega
      · simp [List.filter_cons, List.countP_cons, h]
        omega

/-- Enum round trip for one record. -/
theorem fromDict_toDict (t : Transaction) : fromDict (toDict t) = some t := by
  obtain ⟨i, de, a, ty, c, da, no⟩ := t
  cases ty <;> cases c <;> rfl

/-- List round trip through serialisation. -/
theorem fromDictList_map_toDict (ts : List Transaction) :
    fromDictList (ts.map toDict) = some ts := by
  induction ts with
  | nil => rfl
  | cons t ts ih => simp only [List.map_cons, fromDictList, fromDict_toDict, ih]

/-- `load_data` inverts `save_data` on an untouched document. -/
theorem loadData_saveDataDoc (now v : String) (ts : List Transaction) :
    loadData (some (saveDataDoc now v ts)) = ts := by
  simp only [loadData, saveDataDoc, fromDictList_map_toDict]

/-- The running best of the score fold is one of the scanned entries. -/
theorem foldl_best_mem :
    ∀ (rest : List (Category × Nat)) (x : Category × Nat),
    rest.foldl (fun best p => if best.2 < p.2 then p else best) x ∈ x :: rest := by
  intro rest
  induction rest with
  | nil => intro x; simp
  | cons y rest ih =>
      intro x
      simp only [List.foldl_cons]
      rcases List.mem_cons.mp (ih (if x.2 < y.2 then y else x)) with h1 | h2
      · rw [h1]
        by_cases hxy : x.2 < y.2 <;> simp [hxy]
      · exact List.mem_cons_of_mem _ (List.mem_cons_of_mem _ h2)

/-- The running best of the score fold dominates every scanned entry. -/
theorem foldl_best_ge :
    ∀ (rest : List (Category × Nat)) (x p : Category × Nat), p ∈ x :: rest →
    p.2 ≤ (rest.foldl (fun best q => if best.2 < q.2 then q else best) x).2 := by
  intro rest
  induction rest with
  | nil =>
      intro x p hp
      rw [List.mem_singleton.mp hp]
      exact Nat.le_refl _
  | cons y rest ih =>
      intro x p hp
      simp only [List.foldl_cons]
      have hxstep : x.2 ≤ (if x.2 < y.2 then y else x).2 := by
        by_cases hxy : x.2 < y.2 <;> simp [hxy]
        exact le_of_lt hxy
      have hystep : y.2 ≤ (if x.2 < y.2 then y else x).2 := by
        by_cases hxy : x.2 < y.2 <;> simp [hxy]
        omega
      have htop : (if x.2 < y.2 then y else x).2
          ≤ (rest.foldl (fun best q => if best.2 < q.2 then q else best)
              (if x.2 < y.2 then y else x)).2 :=
        ih _ _ (List.mem_cons_self _ _)
      rcases List.mem_cons.mp hp with rfl | h2
      · exact le_trans hxstep htop
      · rcases List.mem_cons.mp h2 with rfl | h4
        · exact le_trans hystep htop
        · exact ih _ p (List.mem_cons_of_mem _ h4)

/-- One step of the similarity loop: the common-keyword pre-check merges
into the similarity threshold (zero intersection means similarity 0, which
never exceeds 0.3). -/
theorem codePool_cons (kws : List String) (sd : String) (amts : List ℚ)
    (rest : List (String × List ℚ)) :
    codePool kws ((sd, amts) :: rest)
      = if similarity kws (extractKeywords sd) > 3 / 10 then
          amts ++ codePool kws rest
        else codePool kws rest := by
  show (if 0 < countCommonDistinct kws (extractKeywords sd) then
          if similarity kws (extractKeywords sd) > 3 / 10 then
            amts ++ codePool kws rest
          else codePool kws rest
        else codePool kws rest) = _
  by_cases h0 : 0 < countCommonDistinct kws (extractKeywords sd)
  · rw [if_pos h0]
  · have hz : countCommonDistinct kws (extractKeywords sd) = 0 :=
      Nat.eq_zero_of_not_pos h0
    have hsim : ¬ (similarity kws (extractKeywords sd) > 3 / 10) := by
      simp only [similarity, hz, Nat.cast_zero, zero_div]
      norm_num
    rw [if_neg h0, if_neg hsim]

/-- The similarity pool of the source equals the filtered pool phrased the
way the specification words it. -/
theorem codePool_eq_filtered (kws : List String) :
    ∀ l : List (String × List ℚ),
    codePool kws l
      = ((l.filter
            (fun p => decide (similarity kws (extractKeywords p.1) > 3 / 10))).map
          Prod.snd).flatten := by
  intro l
  induction l with
  | nil => rfl
  | cons p rest ih =>
      obtain ⟨sd, amts⟩ := p
      rw [codePool_cons]
      by_cases hw : similarity kws (extractKeywords sd) > 3 / 10
      · simp [List.filter_cons, hw, ih]
      · simp [List.filter_cons, hw, ih]

/- ## Claims -/

/-- Claim C1, counterexample to the claim as stated: a call to
`add_transaction` whose input violates all three validity conditions at
once (empty description, negative amount, income category with expense
kind) does not fail: it returns true and stores a transaction whose amount
was silently coerced to the absolute value 5. -/
theorem claim_c1_counterexample :
    ("" : String).length = 0 ∧
    ((-5 : ℚ) ≤ 0) ∧
    isCategoryCompatible Category.salario TransactionType.despesa.value = false ∧
    (addTransaction emptyFMState "" (-5) TransactionType.despesa Category.salario
        0 none "u9" "n0").1 = true ∧
    (addTransaction emptyFMState "" (-5) TransactionType.despesa Category.salario
        0 none "u9" "n0").2.transactions
      = [{ id := "u9", description := "", amount := 5,
           transaction_type := .despesa, category := .salario,
           date := 0, notes := none }] := by
  decide

/-- Claim C1 (amended): `add_transaction` performs no validation at all.
For every input — including a non-positive amount, an empty description,
or a category incompatible with the kind — it succeeds (returns true) and
appends a transaction storing the absolute value of the amount. -/
theorem claim_c1_amended (s : FMState) (description : String) (amount : ℚ)
    (ty : TransactionType) (cat : Category) (date : Int) (notes : Option String)
    (uuid now : String) :
    (addTransaction s description amount ty cat date notes uuid now).1 = true ∧
    (addTransaction s description amount ty cat date notes uuid now).2.transactions
      = s.transactions ++
        [{ id := uuid, description := description, amount := |amount|,
           transaction_type := ty, category := cat, date := date, notes := notes }] := by
  refine ⟨rfl, ?_⟩
  have h : (addTransaction s description amount ty cat date notes uuid now).2
      = managerUpdateSuggestions now
          { s with
            transactions := s.transactions ++
              [{ id := uuid, description := description, amount := |amount|,
                 transaction_type := ty, category := cat, date := date, notes := notes }],
            dataFile := some (saveDataDoc now s.version
              (s.transactions ++
                [{ id := uuid, description := description, amount := |amount|,
                   transaction_type := ty, category := cat, date := date,
                   notes := notes }])) } := rfl
  rw [h, managerUpdateSuggestions_transactions]

/-- Claim C8: persisting the in-memory list and reloading the untouched
document yields the same records (stated as set equality of records, which
here even holds as list equality). -/
theorem claim_c8 (now v : String) (ts : List Transaction) (t : Transaction) :
    t ∈ loadData (some (saveDataDoc now v ts)) ↔ t ∈ ts := by
  rw [loadData_saveDataDoc]

/-- Claim C10: the read operations `get_transactions`, `calculate_balance`
and `get_category_summary` never modify the manager state (transactions,
engine, data file, backups all unchanged); `get_transactions` builds its
result from a copy, modelled here by value semantics. -/
theorem claim_c10 (s : FMState) (startDate endDate : Option Int) :
    (getTransactions s startDate endDate).2 = s ∧
    (calculateBalance s startDate endDate).2 = s ∧
    (getCategorySummary s startDate endDate).2 = s :=
  ⟨rfl, rfl, rfl⟩

/-- Claim C9: restoring an unknown backup filename returns false and leaves
the whole state — data file, in-memory transactions, backups, engine —
unchanged, whatever the pre-snapshot outcome flag would have been. -/
theorem claim_c9 (s : FMState) (fn nowName now : String) (preCopyOk : Bool)
    (h : alistLookup s.backups fn = none) :
    restoreBackup s fn nowName now preCopyOk = (false, s) := by
  unfold restoreBackup
  rw [h]

/-- Witness for C9 at a concrete state with one backup on file. -/
theorem claim_c9_witness :
    restoreBackup stateWithBackup "nope.json" "x" "y" true = (false, stateWithBackup) :=
  claim_c9 stateWithBackup "nope.json" "x" "y" true rfl

/-- Claim C3, counterexample to the claim as stated: with an existing
backup and an existing data file, a failing pre-restore snapshot copy makes
`restore_backup` return false with the data file untouched — the restore
does not proceed, contrary to the claimed best-effort behaviour. -/
theorem claim_c3_counterexample :
    (restoreBackup stateWithBackup "financial_data_x.json" "20250101_000000" "now"
        false).1 = false ∧
    (restoreBackup stateWithBackup "financial_data_x.json" "20250101_000000" "now"
        false).2.dataFile = some docCurrent ∧
    docCurrent ≠ docBackup := by
  decide

/-- Claim C3 (amended): on restoring an existing backup with an existing
data file, the data file is first snapshotted under a
`pre_restore_<timestamp>` name; when that pre-snapshot copy fails the whole
restore aborts — it returns false and changes nothing — because the copy
raises inside the same handler; when the pre-snapshot succeeds the restore
proceeds (snapshot appended, data file overwritten, store reloaded, engine
signalled). -/
theorem claim_c3_amended (s : FMState) (fn nowName now : String)
    (doc cur : SavedData)
    (hfind : alistLookup s.backups fn = some doc)
    (hcur : s.dataFile = some cur) :
    restoreBackup s fn nowName now false = (false, s) ∧
    restoreBackup s fn nowName now true
      = (true, managerUpdateSuggestions now
          { s with
            backups := s.backups ++ [("pre_restore_" ++ nowName ++ ".json", cur)],
            dataFile := some doc,
            transactions := loadData (some doc) }) := by
  unfold restoreBackup
  rw [hfind, hcur]
  exact ⟨rfl, rfl⟩

/-- Witness for the amended C3 at a concrete state. -/
theorem claim_c3_witness :
    restoreBackup stateWithBackup "financial_data_x.json" "20250101_000000" "now"
      false = (false, stateWithBackup) :=
  (claim_c3_amended stateWithBackup "financial_data_x.json" "20250101_000000" "now"
    docBackup docCurrent rfl rfl).1

/-- Claim C2, counterexample to the claim as stated: rebuilding with the
empty transaction list returns early without clearing anything, so the
resulting indexes still depend on the prior engine state — they are not a
function of the given (empty) list alone. -/
theorem claim_c2_counterexample :
    engineIndexes (updateSuggestions "n" postoEngineTFirst [])
      ≠ engineIndexes (updateSuggestions "n" emptyEngine []) ∧
    (updateSuggestions "n" postoEngineTFirst []).wordFrequency ≠ [] := by
  decide

/-- Claim C2 (amended): for every non-empty transaction list, rebuilding
first clears the four indexes and recomputes them from the list alone, so
the resulting indexes do not depend on the prior engine state (or on the
rebuild timestamps); the empty list instead returns early and keeps the
prior indexes. -/
theorem claim_c2_amended (now1 now2 : String) (e1 e2 : Engine)
    (ts : List Transaction) (h : ts ≠ []) :
    engineIndexes (updateSuggestions now1 e1 ts)
      = engineIndexes (updateSuggestions now2 e2 ts) := by
  obtain ⟨t, ts', rfl⟩ := List.exists_cons_of_ne_nil h
  show engineIndexes
      { (t :: ts').foldl processTransaction
          ⟨[], [], [], [], e1.lastUpdate⟩ with lastUpdate := some now1 }
    = engineIndexes
      { (t :: ts').foldl processTransaction
          ⟨[], [], [], [], e2.lastUpdate⟩ with lastUpdate := some now2 }
  rw [engineIndexes_withLastUpdate, engineIndexes_withLastUpdate]
  exact foldl_processTransaction_lastUpdate (t :: ts') [] [] [] []
    e1.lastUpdate e2.lastUpdate

/-- Witness for the amended C2 on a concrete non-empty list and two
different prior engines. -/
theorem claim_c2_witness :
    engineIndexes (updateSuggestions "a" uberEngine [tPostoT1])
      = engineIndexes (updateSuggestions "b" emptyEngine [tPostoT1]) :=
  claim_c2_amended "a" "b" uberEngine emptyEngine [tPostoT1] (by decide)

/-- Claim C4, counterexample to the claim as stated: the
`finance_manager.py` variant of `remove_transaction` returns true and
rewrites the persisted file even though the id is absent from the store. -/
theorem claim_c4_counterexample :
    (∀ t ∈ stateTwoUber.transactions, t.id ≠ "zz") ∧
    (removeTransactionFM stateTwoUber "zz" "n").1 = true ∧
    (removeTransactionFM stateTwoUber "zz" "n").2.dataFile ≠ stateTwoUber.dataFile := by
  decide

/-- Claim C4 (amended): the `main.py` `remove_transaction` behaves as
claimed — an absent id gives false with the state (including the persisted
file) unchanged, and a uniquely-present id gives true removing exactly the
one matching record even among duplicate descriptions — while the
`finance_manager.py` variant instead returns true unconditionally (and
persists) even when the id is absent. -/
theorem claim_c4_amended (s : FMState) (tid now : String) :
    ((∀ t ∈ s.transactions, t.id ≠ tid) → removeTransaction s tid now = (false, s)) ∧
    (s.transactions.countP (fun t => decide (t.id = tid)) = 1 →
      (removeTransaction s tid now).1 = true ∧
      (removeTransaction s tid now).2.transactions
        = s.transactions.filter (fun t => decide (t.id ≠ tid)) ∧
      (removeTransaction s tid now).2.transactions.length + 1
        = s.transactions.length) ∧
    (removeTransactionFM s tid now).1 = true := by
  have hpred : (fun t : Transaction => decide (t.id ≠ tid))
      = (fun t : Transaction => !(decide (t.id = tid))) := by
    funext t
    by_cases h : t.id = tid <;> simp [h]
  refine ⟨?_, ?_, rfl⟩
  · intro h
    have hf : s.transactions.filter (fun t => decide (t.id ≠ tid)) = s.transactions :=
      List.filter_eq_self.mpr (fun t ht => decide_eq_true (h t ht))
    simp only [removeTransaction, hf]
    rw [if_neg (lt_irrefl _)]
  · intro hcount
    have hlen : (s.transactions.filter (fun t => decide (t.id ≠ tid))).length + 1
        = s.transactions.length := by
      rw [hpred]
      rw [← hcount]
      exact length_filter_not_add_countP s.transactions (fun t => decide (t.id = tid))
    have hlt : (s.transactions.filter (fun t => decide (t.id ≠ tid))).length
        < s.transactions.length := by
      omega
    have hstep : removeTransaction s tid now
        = (true, managerUpdateSuggestions now
            { s with
              transactions := s.transactions.filter (fun t => decide (t.id ≠ tid)),
              dataFile := some (saveDataDoc now s.version
                (s.transactions.filter (fun t => decide (t.id ≠ tid)))) }) := by
      simp only [removeTransaction]
      rw [if_pos hlt]
    rw [hstep]
    refine ⟨rfl, ?_, ?_⟩
    · rw [managerUpdateSuggestions_transactions]
    · rw [managerUpdateSuggestions_transactions]
      exact hlen

/-- Witness for the amended C4: removing an absent id from a store of two
same-description transactions changes nothing and reports false; removing
a present id succeeds and shrinks the list by exactly one; the
`finance_manager.py` variant reports true for the absent id. -/
theorem claim_c4_witness :
    removeTransaction stateTwoUber "zz" "n" = (false, stateTwoUber) ∧
    (removeTransaction stateTwoUber "u1" "n").1 = true ∧
    (removeTransaction stateTwoUber "u1" "n").2.transactions.length + 1
      = stateTwoUber.transactions.length ∧
    (removeTransactionFM stateTwoUber "zz" "n").1 = true :=
  ⟨(claim_c4_amended stateTwoUber "zz" "n").1 (by decide),
   ((claim_c4_amended stateTwoUber "u1" "n").2.1 (by decide)).1,
   ((claim_c4_amended stateTwoUber "u1" "n").2.1 (by decide)).2.2,
   (claim_c4_amended stateTwoUber "zz" "n").2.2⟩

/-- Claim C5, counterexample to the claim as stated: with history mapping
keyword `"posto"` to Transporte three times and to Alimentação once — but
with the Alimentação transaction encountered first — `suggest_category`
returns Alimentação, not Transporte: each distinct category is weighted by
the keyword's global frequency (4), so the two tie and the tie-break picks
the first category encountered. -/
theorem claim_c5_counterexample :
    (postoTxsAFirst.filter (fun t =>
        decide ("posto" ∈ extractKeywords t.description ∧
          t.category = Category.transporte))).length = 3 ∧
    (postoTxsAFirst.filter (fun t =>
        decide ("posto" ∈ extractKeywords t.description ∧
          t.category = Category.alimentacao))).length = 1 ∧
    suggestCategory postoEngineAFirst "posto shell" "despesa"
      = some Category.alimentacao ∧
    Category.alimentacao ≠ Category.transporte := by
  decide

/-- Claim C5 (amended): `suggest_category` accumulates, per extracted
keyword, the keyword's global frequency onto every compatible recorded
category, returns none exactly when no keyword has a compatible vote, and
otherwise returns a category of maximal accumulated weight (the first one
encountered on ties); in the `"posto shell"` example the two candidate
categories tie at the keyword's global frequency, so Transporte is returned
when it was the first category encountered for `"posto"`. -/
theorem claim_c5_amended :
    suggestCategory postoEngineTFirst "posto shell" "despesa"
      = some Category.transporte ∧
    (∀ (e : Engine) (d ty : String),
      suggestCategory e d ty = none ↔ categoryScores e d ty = []) ∧
    (∀ (e : Engine) (d ty : String) (c : Category),
      suggestCategory e d ty = some c →
      ∃ w, (c, w) ∈ categoryScores e d ty ∧
        ∀ p ∈ categoryScores e d ty, p.2 ≤ w) := by
  refine ⟨by decide, ?_, ?_⟩
  · intro e d ty
    unfold suggestCategory
    cases categoryScores e d ty with
    | nil => simp [mostCommonFst]
    | cons x rest => simp [mostCommonFst]
  · intro e d ty c h
    unfold suggestCategory at h
    cases hs : categoryScores e d ty with
    | nil =>
        rw [hs] at h
        exact absurd h (by simp [mostCommonFst])
    | cons x rest =>
        rw [hs] at h
        simp only [mostCommonFst, Option.some.injEq] at h
        refine ⟨(rest.foldl (fun best p => if best.2 < p.2 then p else best) x).2,
          ?_, ?_⟩
        · rw [← h]
          exact foldl_best_mem rest x
        · intro p hp
          exact foldl_best_ge rest x p hp

/-- Witness for the amended C5: the returned category Transporte indeed
carries a maximal accumulated weight in the example history. -/
theorem claim_c5_witness :
    ∃ w, (Category.transporte, w)
        ∈ categoryScores postoEngineTFirst "posto shell" "despesa" ∧
      ∀ p ∈ categoryScores postoEngineTFirst "posto shell" "despesa", p.2 ≤ w :=
  claim_c5_amended.2.2 postoEngineTFirst "posto shell" "despesa"
    Category.transporte (by decide)

/-- Claim C6: `suggest_amount` returns the mean of the recorded amounts on
an exact lower-cased match (`"uber"` at 25.00 and 35.00 gives 30.00 for
`"Uber"`), and otherwise pools the amounts of every indexed description
whose keyword similarity `|common| / max(|query|, |stored|)` exceeds 0.3,
returning their mean, or none on an empty pool — stated as equality with
the specification-worded function. -/
theorem claim_c6 :
    suggestAmount uberEngine "Uber" = some 30 ∧
    ∀ (e : Engine) (d : String), suggestAmount e d = suggestAmountSpec e d := by
  constructor
  · have h : suggestAmount uberEngine "Uber" = some (listMean [25, 35]) := rfl
    rw [h]
    norm_num [listMean]
  · intro e d
    simp only [suggestAmount, suggestAmountSpec, codePool_eq_filtered]

/-- Claim C7, counterexample to the claim as stated: keyword extraction
returns the 3-character token `"gas"`, whose length is not strictly greater
than 3 — the source keeps every token of length greater than 2. -/
theorem claim_c7_counterexample :
    "gas" ∈ extractKeywords "gas" ∧ ¬ (3 < ("gas" : String).length) := by
  decide

/-- Claim C7 (amended): keyword extraction returns only tokens of length
strictly greater than 2 characters (after lower-casing and punctuation
stripping), excludes every stop word, and returns at most 4 keywords. -/
theorem claim_c7_amended (d : String) :
    (∀ w ∈ extractKeywords d, 2 < w.length ∧ w ∉ stopWords) ∧
    (extractKeywords d).length ≤ 4 := by
  constructor
  · intro w hw
    simp only [extractKeywords] at hw
    have hw1 := List.take_subset 4 _ hw
    have hw2 := List.mem_filter.mp hw1
    obtain ⟨cs, hcs, rfl⟩ := List.mem_map.mp hw2.1
    have hlen := (List.mem_filter.mp hcs).2
    exact ⟨of_decide_eq_true hlen, of_decide_eq_true hw2.2⟩
  · simp only [extractKeywords]
    exact List.length_take_le 4 _

/-- Witness for the amended C7 at a concrete description. -/
theorem claim_c7_witness :
    (2 < ("supermercado" : String).length ∧ "supermercado" ∉ stopWords) ∧
    (extractKeywords "supermercado pao").length ≤ 4 :=
  ⟨(claim_c7_amended "supermercado pao").1 "supermercado" (by decide),
   (claim_c7_amended "supermercado pao").2⟩

end FinanceManagerModel
